import Mathlib

/-!
Certificate-Generator backend (`server/main.go`).

A shallow embedding of the HTTP handlers of `server/main.go` and of the
document collection they talk to, followed by theorems about them.

Conventions of the embedding:

* a `time.Time` is a natural number (milliseconds since the Unix epoch, the
  resolution the document store keeps);
* a `float64` field is carried as a rational number: the server never
  computes on these fields, it only stores and returns them;
* everything the outside world supplies during one run of a handler (clock
  readings, store faults, the identifier generated for an insert, environment
  variables, the local rendering of a date, the case folding of the store's
  regular-expression engine) is collected in `Effects`;
* the collection is a list of certificates together with the log of the
  operations it received, so that "no store call is made" can be stated;
* the store's `$regex` operator is modelled for patterns made of literal
  characters and the dot; what the engine does with any other pattern is a
  parameter of the model;
* JSON decoding and encoding are not modelled: a request carries the decoded
  certificate (or the decoder's error), a response body the value encoded.
-/

namespace CertificateGenerator

/-! ## Data model -/

/-- An instant: milliseconds since the Unix epoch. -/
abbrev Time := Nat

/-- The twelve-byte document identifier `primitive.ObjectID`, as the number its
bytes spell in base 256. -/
structure ObjectID where
  val : Nat
  deriving DecidableEq, Repr

/-- The all-zero identifier `primitive.NilObjectID`. -/
def NilObjectID : ObjectID := ⟨0⟩

/-- The method `ObjectID.IsZero`. -/
def ObjectID.IsZero (id : ObjectID) : Bool := id.val == 0

/-- The struct `CertificateElement`. -/
structure CertificateElement where
  id : String := ""
  type : String := ""
  content : String := ""
  x : ℚ := 0
  y : ℚ := 0
  width : ℚ := 0
  height : ℚ := 0
  fontSize : ℚ := 0
  color : String := ""
  fontFamily : String := ""
  fontWeight : String := ""
  zIndex : Int := 0
  textAlign : String := ""
  borderColor : String := ""
  borderWidth : ℚ := 0
  borderStyle : String := ""
  borderRadius : ℚ := 0
  deriving DecidableEq, Repr

/-- The struct `Certificate`. -/
structure Certificate where
  id : ObjectID := NilObjectID
  name : String := ""
  bgImage : String := ""
  elements : List CertificateElement := []
  createdAt : Time := 0
  updatedAt : Time := 0
  deriving DecidableEq, Repr

/-! ## The HTTP side -/

/-- What a handler writes into the response body. JSON encoding is not
modelled: an encoded value is kept as the value itself. -/
inductive Payload where
  | text (s : String)
  | certificate (c : Certificate)
  | certificates (cs : List Certificate)
  deriving DecidableEq, Repr

/-- An `http.ResponseWriter`: the header map, the status code once it has been
written, and the body chunks written so far. -/
structure ResponseWriter where
  header : List (String × String) := []
  status : Option Nat := none
  body : List Payload := []
  deriving DecidableEq, Repr

/-- The call `w.Header().Set(key, value)`: replaces whatever the key held. -/
def ResponseWriter.setHeader (w : ResponseWriter) (key value : String) : ResponseWriter :=
  { w with header := w.header.filter (fun kv => kv.1 != key) ++ [(key, value)] }

/-- The call `w.Header().Get(key)`. -/
def ResponseWriter.getHeader (w : ResponseWriter) (key : String) : String :=
  match w.header.find? (fun kv => kv.1 == key) with
  | some kv => kv.2
  | none => ""

/-- The call `w.WriteHeader(code)`: the first call fixes the status. -/
def ResponseWriter.WriteHeader (w : ResponseWriter) (code : Nat) : ResponseWriter :=
  match w.status with
  | some _ => w
  | none => { w with status := some code }

/-- The call `w.Write(...)`: writing a body before any status sends 200. -/
def ResponseWriter.Write (w : ResponseWriter) (p : Payload) : ResponseWriter :=
  let w1 := w.WriteHeader 200
  { w1 with body := w1.body ++ [p] }

/-- The library function `http.Error`. -/
def httpError (w : ResponseWriter) (msg : String) (code : Nat) : ResponseWriter :=
  let w1 := { w with header := w.header.filter (fun kv => kv.1 != "Content-Length") }
  let w2 := w1.setHeader "Content-Type" "text/plain; charset=utf-8"
  let w3 := w2.setHeader "X-Content-Type-Options" "nosniff"
  (w3.WriteHeader code).Write (Payload.text (msg ++ "\n"))

/-- The status the client receives: 200 when the handler never wrote one. -/
def ResponseWriter.statusCode (w : ResponseWriter) : Nat := w.status.getD 200

/-- An incoming request: method, URL path, decoded URL query, and the result of
`json.NewDecoder(r.Body).Decode(&cert)` (the decoder's error text when the body
does not parse). -/
structure Request where
  method : String := "GET"
  path : String := "/"
  query : List (String × String) := []
  body : Except String Certificate := Except.error "EOF"

/-- The call `r.URL.Query().Get(key)`: first value of the key, else empty. -/
def Request.queryGet (r : Request) (key : String) : String :=
  match r.query.find? (fun kv => kv.1 == key) with
  | some kv => kv.2
  | none => ""

/-! ## The document collection -/

/-- A query filter as the handlers build it. -/
inductive Filter where
  | all
  | nameRegex (pattern options : String)
  | byID (id : ObjectID)
  deriving DecidableEq, Repr

/-- The sort option of a find: a field and a direction, `-1` for descending. -/
inductive SortSpec where
  | unsorted
  | updatedAt (direction : Int)
  deriving DecidableEq, Repr

/-- The `$set` document of the update issued by the save handler. -/
structure UpdateSet where
  name : String
  bgImage : String
  elements : List CertificateElement
  updatedAt : Time
  deriving DecidableEq, Repr

/-- One operation received by the store. -/
inductive StoreCall where
  | connect
  | ping
  | createIndex (field : String)
  | countDocuments (filter : Filter)
  | insertOne (doc : Certificate)
  | updateByID (id : ObjectID) (set : UpdateSet) (upsert : Bool)
  | find (filter : Filter) (sort : SortSpec)
  | findOne (filter : Filter)
  deriving DecidableEq, Repr

/-- The collection `certificates`: its documents in natural order and the log
of the operations it has received. -/
structure Store where
  docs : List Certificate := []
  calls : List StoreCall := []
  deriving DecidableEq, Repr

/-- What the outside world supplies during one run. -/
structure Effects where
  -- the value returned by the n-th call of `time.Now()` in this run
  now : Nat → Time
  -- the transport-level error (timeout, network, decode) of the n-th store
  -- interaction of this run, if the driver reports one
  storeErr : Nat → Option String
  -- the identifier the driver generates for a document inserted without one
  newID : ObjectID
  -- the call `os.Getenv`
  getenv : String → String
  -- the call `t.Format("02/01/2006")` in the process's local time zone
  formatDate : Time → String
  -- the representative the regular-expression engine's caseless matching gives
  -- a character: two characters match caselessly when they share it
  caseFold : Char → Char
  -- the verdict of the store's regular-expression engine on a pattern (with
  -- options) outside the fragment modelled in `regexSearch`: a compile error,
  -- or the predicate telling which subjects it matches
  regexOutside : String → String → Except String (String → Bool)

/-- Appends an operation to the log. -/
def Store.record (st : Store) (c : StoreCall) : Store :=
  { st with calls := st.calls ++ [c] }

/-- An error a store call hands back to the handler. -/
inductive StoreError where
  | noDocuments
  | other (msg : String)
  deriving DecidableEq, Repr

/-- The method `err.Error()`. -/
def StoreError.Error : StoreError → String
  | StoreError.noDocuments => "mongo: no documents in result"
  | StoreError.other msg => msg

/-- Applies `f` to the first document whose identifier is `id`. -/
def setFirst (id : ObjectID) (f : Certificate → Certificate) : List Certificate → List Certificate
  | [] => []
  | d :: ds => if d.id = id then f d :: ds else d :: setFirst id f ds

/-- The store operation `InsertOne`, as the k-th store call of the run. A
document without identifier receives the generated one; an identifier already
present is a duplicate-key error. -/
def InsertOne (fx : Effects) (k : Nat) (st : Store) (doc : Certificate) :
    Except StoreError ObjectID × Store :=
  let st1 := st.record (StoreCall.insertOne doc)
  match fx.storeErr k with
  | some e => (Except.error (StoreError.other e), st1)
  | none =>
    let oid := if doc.id.IsZero then fx.newID else doc.id
    if st.docs.any (fun d => d.id == oid) then
      (Except.error (StoreError.other "E11000 duplicate key error collection"), st1)
    else
      (Except.ok oid, { st1 with docs := st1.docs ++ [{ doc with id := oid }] })

/-- The fields an update's `$set` document overwrites. -/
def UpdateSet.apply (u : UpdateSet) (d : Certificate) : Certificate :=
  { d with name := u.name, bgImage := u.bgImage, elements := u.elements, updatedAt := u.updatedAt }

/-- The store operation `UpdateByID`, as the k-th store call of the run: the
document with that identifier has the `$set` fields replaced; when there is
none, nothing is written unless the upsert option is given. -/
def UpdateByID (fx : Effects) (k : Nat) (st : Store) (id : ObjectID) (u : UpdateSet)
    (upsert : Bool) : Except StoreError Unit × Store :=
  let st1 := st.record (StoreCall.updateByID id u upsert)
  match fx.storeErr k with
  | some e => (Except.error (StoreError.other e), st1)
  | none =>
    if st.docs.any (fun d => d.id == id) then
      (Except.ok (), { st1 with docs := setFirst id u.apply st1.docs })
    else if upsert then
      (Except.ok (), { st1 with docs := st1.docs ++ [u.apply { id := id }] })
    else
      (Except.ok (), st1)

/-! ## Saving -/

/-- The JSON success reply shared by the handlers: content type, then the
encoded value. -/
def writeJSON (w : ResponseWriter) (p : Payload) : ResponseWriter :=
  (w.setHeader "Content-Type" "application/json").Write p

/-- The handler `handleSaveCertificate`. -/
def handleSaveCertificate (fx : Effects) (w : ResponseWriter) (r : Request) (st : Store) :
    ResponseWriter × Store :=
  if r.method ≠ "POST" then
    (httpError w "Method not allowed" 405, st)
  else
    match r.body with
    | Except.error e => (httpError w ("Invalid request body: " ++ e) 400, st)
    | Except.ok cert0 =>
      if cert0.name = "" then
        (httpError w "Certificate name is required" 400, st)
      else
        let cert1 := { cert0 with updatedAt := fx.now 0 }
        if cert1.id.IsZero then
          let cert2 := { cert1 with createdAt := fx.now 1 }
          match InsertOne fx 0 st cert2 with
          | (Except.error err, st1) =>
            (httpError w ("Database error: " ++ err.Error) 500, st1)
          | (Except.ok oid, st1) =>
            (writeJSON w (Payload.certificate { cert2 with id := oid }), st1)
        else
          let update : UpdateSet :=
            { name := cert1.name, bgImage := cert1.bgImage, elements := cert1.elements,
              updatedAt := cert1.updatedAt }
          match UpdateByID fx 0 st cert1.id update false with
          | (Except.error err, st1) =>
            (httpError w ("Database error: " ++ err.Error) 500, st1)
          | (Except.ok _, st1) =>
            (writeJSON w (Payload.certificate cert1), st1)

/-! ## Identifiers in hexadecimal -/

/-- The value of one hexadecimal digit, as `encoding/hex` reads it. -/
def fromHexChar (c : Char) : Option Nat :=
  if '0' ≤ c ∧ c ≤ '9' then some (c.toNat - '0'.toNat)
  else if 'a' ≤ c ∧ c ≤ 'f' then some (c.toNat - 'a'.toNat + 10)
  else if 'A' ≤ c ∧ c ≤ 'F' then some (c.toNat - 'A'.toNat + 10)
  else none

/-- Reads a run of hexadecimal digits onto the accumulator, most significant
first; fails at the first character that is not a digit. -/
def hexDecode (acc : Nat) : List Char → Option Nat
  | [] => some acc
  | c :: cs =>
    match fromHexChar c with
    | none => none
    | some v => hexDecode (acc * 16 + v) cs

/-- The library function `primitive.ObjectIDFromHex`: exactly 24 bytes, all of
them hexadecimal digits. -/
def ObjectIDFromHex (s : String) : Except String ObjectID :=
  if s.utf8ByteSize ≠ 24 then
    Except.error "the provided hex string is not a valid ObjectID"
  else
    match hexDecode 0 s.data with
    | none => Except.error "encoding/hex: invalid byte"
    | some n => Except.ok ⟨n⟩

/-! ## Queries of the store -/

/-- The characters a pattern does not take literally: the regular-expression
metacharacters, and the NUL character, which a pattern may not hold. -/
def isRegexMeta (c : Char) : Bool :=
  c ∈ ['\\', '^', '$', '.', '|', '?', '*', '+', '(', ')', '[', '{', '\x00']

/-- Whether pattern character `p` accepts subject character `t`: the dot
accepts everything but a newline, any other character accepts itself, up to
the engine's case folding when the match is caseless. -/
def atomMatches (fold : Char → Char) (caseless : Bool) (p t : Char) : Bool :=
  if p = '.' then t != '\n'
  else if caseless then fold p == fold t
  else p == t

/-- Whether the pattern matches at the start of the subject. -/
def matchHere (fold : Char → Char) (caseless : Bool) : List Char → List Char → Bool
  | [], _ => true
  | _ :: _, [] => false
  | p :: ps, t :: ts => atomMatches fold caseless p t && matchHere fold caseless ps ts

/-- Whether the pattern matches at some position of the subject (a regular
expression is not anchored). -/
def matchAnywhere (fold : Char → Char) (caseless : Bool) (ps : List Char) : List Char → Bool
  | [] => matchHere fold caseless ps []
  | t :: ts => matchHere fold caseless ps (t :: ts) || matchAnywhere fold caseless ps ts

/-- The fragment of the store's regular-expression language that is modelled:
patterns made of literal characters and the dot, with no option or with the
caseless option `i`. Alternation, repetition, groups, classes, anchors and
escapes are outside it. -/
def inFragment (pattern options : String) : Bool :=
  pattern.data.all (fun c => c == '.' || !isRegexMeta c) && (options == "" || options == "i")

/-- The store's `$regex` operator: the compiled matcher of a pattern, or the
compile error. Patterns outside the modelled fragment are answered by the
engine itself, `fx.regexOutside`. -/
def regexSearch (fx : Effects) (pattern options : String) : Except String (String → Bool) :=
  if inFragment pattern options then
    Except.ok (fun subject =>
      matchAnywhere fx.caseFold (options == "i") pattern.data subject.data)
  else
    fx.regexOutside pattern options

/-- The documents a filter selects, or the error of a filter the store rejects. -/
def Filter.compile (fx : Effects) : Filter → Except String (Certificate → Bool)
  | Filter.all => Except.ok (fun _ => true)
  | Filter.nameRegex pattern options =>
    match regexSearch fx pattern options with
    | Except.error e => Except.error e
    | Except.ok m => Except.ok (fun d => m d.name)
  | Filter.byID id => Except.ok (fun d => d.id == id)

/-- The order a sort option puts the selected documents in; a direction other
than `1` and `-1` is rejected by the store. -/
def SortSpec.apply : SortSpec → List Certificate → Except String (List Certificate)
  | SortSpec.unsorted, ds => Except.ok ds
  | SortSpec.updatedAt direction, ds =>
    if direction = -1 then
      Except.ok (ds.insertionSort (fun a b => b.updatedAt ≤ a.updatedAt))
    else if direction = 1 then
      Except.ok (ds.insertionSort (fun a b => a.updatedAt ≤ b.updatedAt))
    else
      Except.error "bad sort specification"

/-- The store operation `FindOne(...).Decode(&cert)`, as the k-th store call of
the run. -/
def FindOne (fx : Effects) (k : Nat) (st : Store) (filter : Filter) :
    Except StoreError Certificate × Store :=
  let st1 := st.record (StoreCall.findOne filter)
  match fx.storeErr k with
  | some e => (Except.error (StoreError.other e), st1)
  | none =>
    match filter.compile fx with
    | Except.error e => (Except.error (StoreError.other e), st1)
    | Except.ok keep =>
      match st.docs.find? keep with
      | some d => (Except.ok d, st1)
      | none => (Except.error StoreError.noDocuments, st1)

/-- The store operation `Find`, as the k-th store call of the run. -/
def Find (fx : Effects) (k : Nat) (st : Store) (filter : Filter) (sort : SortSpec) :
    Except StoreError (List Certificate) × Store :=
  let st1 := st.record (StoreCall.find filter sort)
  match fx.storeErr k with
  | some e => (Except.error (StoreError.other e), st1)
  | none =>
    match filter.compile fx with
    | Except.error e => (Except.error (StoreError.other e), st1)
    | Except.ok keep =>
      match sort.apply (st.docs.filter keep) with
      | Except.error e => (Except.error (StoreError.other e), st1)
      | Except.ok ds => (Except.ok ds, st1)

/-! ## Loading, the handler -/

/-- The handler `handleLoadCertificate`. -/
def handleLoadCertificate (fx : Effects) (w : ResponseWriter) (r : Request) (st : Store) :
    ResponseWriter × Store :=
  if r.method ≠ "GET" then
    (httpError w "Method not allowed" 405, st)
  else
    let id := r.queryGet "id"
    if id = "" then
      (httpError w "ID parameter is required" 400, st)
    else
      match ObjectIDFromHex id with
      | Except.error e => (httpError w ("Invalid ID format: " ++ e) 400, st)
      | Except.ok objID =>
        match FindOne fx 0 st (Filter.byID objID) with
        | (Except.error err, st1) =>
          if err = StoreError.noDocuments then
            (httpError w "Certificate not found" 404, st1)
          else
            (httpError w ("Database error: " ++ err.Error) 500, st1)
        | (Except.ok cert, st1) =>
          (writeJSON w (Payload.certificate cert), st1)

/-! ## Listing -/

/-- The handler `handleListCertificates`. Draining the cursor (`cursor.All`)
is the second store interaction of the run and may fail on its own. -/
def handleListCertificates (fx : Effects) (w : ResponseWriter) (r : Request) (st : Store) :
    ResponseWriter × Store :=
  let name := r.queryGet "name"
  let filter := if name ≠ "" then Filter.nameRegex name "i" else Filter.all
  let opts := SortSpec.updatedAt (-1)
  match Find fx 0 st filter opts with
  | (Except.error err, st1) =>
    (httpError w ("Database error: " ++ err.Error) 500, st1)
  | (Except.ok certificates, st1) =>
    match fx.storeErr 1 with
    | some e => (httpError w ("Error reading certificates: " ++ e) 500, st1)
    | none => (writeJSON w (Payload.certificates certificates), st1)

/-- The handler `handleCertificates`. -/
def handleCertificates (fx : Effects) (w : ResponseWriter) (r : Request) (st : Store) :
    ResponseWriter × Store :=
  if r.method = "GET" then handleListCertificates fx w r st
  else (httpError w "Method not allowed" 405, st)

/-! ## The default certificate -/

/-- A number in decimal, padded with zeros on the left to `width` digits. -/
def padZero (width n : Nat) : String :=
  let digits := toString n
  String.mk (List.replicate (width - digits.length) '0') ++ digits

/-- The call `t.Format("02/01/2006")` for a process whose local zone is UTC:
day, month and year of the instant in the proleptic Gregorian calendar. -/
def formatDateUTC (t : Time) : String :=
  let z := t / 86400000 + 719468
  let era := z / 146097
  let doe := z % 146097
  let yoe := (doe - doe / 1460 + doe / 36524 - doe / 146096) / 365
  let doy := doe - (365 * yoe + yoe / 4 - yoe / 100)
  let mp := (5 * doy + 2) / 153
  let day := doy - (153 * mp + 2) / 5 + 1
  let month := if mp < 10 then mp + 3 else mp - 9
  let year := yoe + era * 400 + (if month ≤ 2 then 1 else 0)
  padZero 2 day ++ "/" ++ padZero 2 month ++ "/" ++ padZero 4 year

/-- The handler `handleDefaultCertificate`. The literal reads the clock three
times, in source order: for the date line, for `CreatedAt`, for `UpdatedAt`. -/
def handleDefaultCertificate (fx : Effects) (w : ResponseWriter) (r : Request) (st : Store) :
    ResponseWriter × Store :=
  if r.method ≠ "GET" then
    (httpError w "Method not allowed" 405, st)
  else
    let defaultCertificate : Certificate :=
      { name := "Default Certificate",
        bgImage := "",
        elements := [
          { id := "title",
            type := "text",
            content := "CERTIFICATE OF ACHIEVEMENT",
            x := 400,
            y := 100,
            fontSize := 36,
            color := "#2c3e50",
            fontFamily := "Times New Roman",
            fontWeight := "bold",
            zIndex := 1,
            textAlign := "center",
            borderColor := "transparent",
            borderWidth := 0,
            borderStyle := "solid",
            borderRadius := 0 },
          { id := "recipient",
            type := "text",
            content := "This certificate is awarded to [Recipient Name]",
            x := 400,
            y := 200,
            fontSize := 20,
            color := "#2c3e50",
            fontFamily := "Times New Roman",
            zIndex := 2,
            textAlign := "center",
            borderColor := "transparent",
            borderWidth := 0,
            borderStyle := "solid",
            borderRadius := 0 },
          { id := "description",
            type := "text",
            content := "For outstanding performance and dedication",
            x := 400,
            y := 250,
            fontSize := 20,
            color := "#2c3e50",
            fontFamily := "Times New Roman",
            zIndex := 3,
            textAlign := "center",
            borderColor := "transparent",
            borderWidth := 0,
            borderStyle := "solid",
            borderRadius := 0 },
          { id := "date",
            type := "text",
            content := "Date: " ++ fx.formatDate (fx.now 0),
            x := 400,
            y := 350,
            fontSize := 18,
            color := "#2c3e50",
            fontFamily := "Times New Roman",
            zIndex := 4,
            textAlign := "center",
            borderColor := "transparent",
            borderWidth := 0,
            borderStyle := "solid",
            borderRadius := 0 },
          { id := "signature",
            type := "text",
            content := "Authorized Signature",
            x := 400,
            y := 450,
            fontSize := 18,
            color := "#2c3e50",
            fontFamily := "Times New Roman",
            zIndex := 5,
            textAlign := "center",
            borderColor := "transparent",
            borderWidth := 0,
            borderStyle := "solid",
            borderRadius := 0 } ],
        createdAt := fx.now 1,
        updatedAt := fx.now 2 }
    (writeJSON w (Payload.certificate defaultCertificate), st)

/-! ## Startup -/

/-- The outcome of startup: the process serves, or `log.Fatal` ended it. -/
inductive Startup where
  | serving
  | fatal (msg : String)
  deriving DecidableEq, Repr

/-- The function `insertDefaultCertificate`, whose insert is the k-th store call
of the run. Its literal reads the clock three times, in source order. -/
def insertDefaultCertificate (fx : Effects) (k : Nat) (st : Store) : Startup × Store :=
  let defaultCertificate : Certificate :=
    { name := "Default Certificate",
      bgImage := "",
      elements := [
        { id := "title",
          type := "text",
          content := "CERTIFICATE OF ACHIEVEMENT",
          x := 400,
          y := 100,
          fontSize := 36,
          color := "#2c3e50",
          fontFamily := "Times New Roman",
          fontWeight := "bold",
          zIndex := 1,
          textAlign := "center",
          borderColor := "transparent",
          borderWidth := 0,
          borderStyle := "solid",
          borderRadius := 0 },
        { id := "recipient",
          type := "text",
          content := "This certificate is awarded to [Recipient Name]",
          x := 400,
          y := 200,
          fontSize := 20,
          color := "#2c3e50",
          fontFamily := "Times New Roman",
          zIndex := 2,
          textAlign := "center",
          borderColor := "transparent",
          borderWidth := 0,
          borderStyle := "solid",
          borderRadius := 0 },
        { id := "description",
          type := "text",
          content := "For outstanding performance and dedication",
          x := 400,
          y := 250,
          fontSize := 20,
          color := "#2c3e50",
          fontFamily := "Times New Roman",
          zIndex := 3,
          textAlign := "center",
          borderColor := "transparent",
          borderWidth := 0,
          borderStyle := "solid",
          borderRadius := 0 },
        { id := "date",
          type := "text",
          content := "Date: " ++ fx.formatDate (fx.now 0),
          x := 400,
          y := 350,
          fontSize := 18,
          color := "#2c3e50",
          fontFamily := "Times New Roman",
          zIndex := 4,
          textAlign := "center",
          borderColor := "transparent",
          borderWidth := 0,
          borderStyle := "solid",
          borderRadius := 0 },
        { id := "signature",
          type := "text",
          content := "Authorized Signature",
          x := 400,
          y := 450,
          fontSize := 18,
          color := "#2c3e50",
          fontFamily := "Times New Roman",
          zIndex := 5,
          textAlign := "center",
          borderColor := "transparent",
          borderWidth := 0,
          borderStyle := "solid",
          borderRadius := 0 } ],
      createdAt := fx.now 1,
      updatedAt := fx.now 2 }
  match InsertOne fx k st defaultCertificate with
  | (Except.error err, st1) =>
    (Startup.fatal ("Error inserting default certificate:" ++ err.Error), st1)
  | (Except.ok _, st1) => (Startup.serving, st1)

/-- A store interaction that only succeeds or fails (`Connect`, `Ping`, index
creation), as the k-th store call of the run. -/
def storeStep (fx : Effects) (k : Nat) (st : Store) (c : StoreCall) : Option String × Store :=
  (fx.storeErr k, st.record c)

/-- The store operation `CountDocuments`, as the k-th store call of the run. -/
def CountDocuments (fx : Effects) (k : Nat) (st : Store) (filter : Filter) :
    Except StoreError Nat × Store :=
  let st1 := st.record (StoreCall.countDocuments filter)
  match fx.storeErr k with
  | some e => (Except.error (StoreError.other e), st1)
  | none =>
    match filter.compile fx with
    | Except.error e => (Except.error (StoreError.other e), st1)
    | Except.ok keep => (Except.ok (st.docs.filter keep).length, st1)

/-- The function `init`: connect, ping, create the name index, count the
documents and seed the collection when there are none. Any failure is fatal. -/
def init (fx : Effects) (st : Store) : Startup × Store :=
  match storeStep fx 0 st StoreCall.connect with
  | (some e, st1) => (Startup.fatal e, st1)
  | (none, st1) =>
    match storeStep fx 1 st1 StoreCall.ping with
    | (some e, st2) => (Startup.fatal e, st2)
    | (none, st2) =>
      match storeStep fx 2 st2 (StoreCall.createIndex "name") with
      | (some e, st3) => (Startup.fatal ("Error creating index:" ++ e), st3)
      | (none, st3) =>
        match CountDocuments fx 3 st3 Filter.all with
        | (Except.error err, st4) =>
          (Startup.fatal ("Error checking collection count:" ++ err.Error), st4)
        | (Except.ok count, st4) =>
          if count = 0 then insertDefaultCertificate fx 4 st4
          else (Startup.serving, st4)

/-! ## Routing and CORS -/

/-- An `http.Handler` over a server state of type `σ`. -/
abbrev Handler (σ : Type) := ResponseWriter → Request → σ → ResponseWriter × σ

/-- The decorator `corsMiddleware`. -/
def corsMiddleware {σ : Type} (fx : Effects) (next : Handler σ) : Handler σ :=
  fun w r s =>
    let origin := fx.getenv "ALLOWED_ORIGIN"
    let origin := if origin = "" then "*" else origin
    let w1 := w.setHeader "Access-Control-Allow-Origin" origin
    let w2 := w1.setHeader "Access-Control-Allow-Methods" "GET, POST, PUT, DELETE, OPTIONS"
    let w3 := w2.setHeader "Access-Control-Allow-Headers" "Content-Type"
    let w4 := w3.setHeader "Access-Control-Allow-Credentials" "true"
    if r.method = "OPTIONS" then
      (w4.WriteHeader 200, s)
    else
      next w4 r s

/-- The routes registered in `main`: each path with its decorated handler. -/
def routes (fx : Effects) : List (String × Handler Store) :=
  [ ("/api/certificates", corsMiddleware fx (handleCertificates fx)),
    ("/api/certificates/default", corsMiddleware fx (handleDefaultCertificate fx)),
    ("/api/certificates/save", corsMiddleware fx (handleSaveCertificate fx)),
    ("/api/certificates/load", corsMiddleware fx (handleLoadCertificate fx)) ]

/-- The default serve mux: a registered path is served by its handler, any
other path by the library's not-found handler. -/
def serve (fx : Effects) : Handler Store :=
  fun w r st =>
    match (routes fx).find? (fun ph => ph.1 == r.path) with
    | some ph => ph.2 w r st
    | none => (httpError w "404 page not found" 404, st)

/-! ## Concrete inputs used by the closed theorems below -/

/-- A fault-free environment whose clock advances by one millisecond per
reading, starting at `t0`; no environment variable is set, the local zone is
UTC, case folding is that of the ASCII letters, and the regular-expression
engine rejects every pattern outside the modelled fragment. -/
def tickingClock (t0 : Time) : Effects :=
  { now := fun n => t0 + n,
    storeErr := fun _ => none,
    newID := ⟨1⟩,
    getenv := fun _ => "",
    formatDate := formatDateUTC,
    caseFold := Char.toLower,
    regexOutside := fun _ _ => Except.error "regular expression is invalid" }

/-- A save request carrying a new certificate: a name, no identifier. -/
def createRequest : Request :=
  { method := "POST", path := "/api/certificates/save", body := Except.ok { name := "Diploma" } }

/-- A save request carrying a certificate under identifier 7. -/
def updateRequest : Request :=
  { method := "POST", path := "/api/certificates/save",
    body := Except.ok { id := ⟨7⟩, name := "Renamed", bgImage := "bg.png" } }

/-- A collection of two records, the second one under identifier 7. -/
def twoRecords : Store :=
  { docs := [{ id := ⟨5⟩, name := "First", createdAt := 10, updatedAt := 20 },
             { id := ⟨7⟩, name := "Second", createdAt := 30, updatedAt := 40 }] }

/-- A collection of one record, under identifier 5. -/
def oneRecord : Store :=
  { docs := [{ id := ⟨5⟩, name := "First", createdAt := 10, updatedAt := 20 }] }

/-- A load request whose `id` parameter is not an identifier. -/
def badIdRequest : Request :=
  { method := "GET", path := "/api/certificates/load", query := [("id", "not-an-object-id")] }

/-- A load request for a well-formed identifier. -/
def loadRequest : Request :=
  { method := "GET", path := "/api/certificates/load",
    query := [("id", "507f1f77bcf86cd799439011")] }

/-- A list request filtering on the name `CERT`. -/
def certRequest : Request :=
  { method := "GET", path := "/api/certificates", query := [("name", "CERT")] }

/-- A list request whose name filter is a single dot. -/
def dotRequest : Request :=
  { method := "GET", path := "/api/certificates", query := [("name", ".")] }

/-- A list request without a name filter. -/
def listRequest : Request :=
  { method := "GET", path := "/api/certificates" }

/-- A collection of three records in no particular order. -/
def threeRecords : Store :=
  { docs := [{ id := ⟨5⟩, name := "My Certificate", createdAt := 10, updatedAt := 20 },
             { id := ⟨7⟩, name := "Diploma", createdAt := 30, updatedAt := 40 },
             { id := ⟨9⟩, name := "certified copy", createdAt := 25, updatedAt := 30 }] }

/-- A writer on which a header has already been set and nothing written. -/
def tracedWriter : ResponseWriter :=
  { header := [("X-Request-Id", "42")] }

/-- A request for the default certificate. -/
def defaultRequest : Request :=
  { method := "GET", path := "/api/certificates/default" }

/-- A request with the preflight method. -/
def preflightRequest : Request :=
  { method := "OPTIONS", path := "/api/certificates/save" }

/-! ## The words of the specification -/

/-- The certificate with the content string of its date element blanked: what
is left when "the embedded current date string" is ignored. -/
def eraseDateContent (c : Certificate) : Certificate :=
  { c with elements := c.elements.map (fun e => if e.id = "date" then { e with content := "" } else e) }

/-- The certificate a client reads from a response whose body is one encoded
certificate. -/
def returnedCertificate (w : ResponseWriter) : Option Certificate :=
  match w.body with
  | [Payload.certificate c] => some c
  | _ => none

/-- The origin the CORS decorator allows: the `ALLOWED_ORIGIN` setting, or `*`
when that setting is empty. -/
def allowedOrigin (fx : Effects) : String :=
  if fx.getenv "ALLOWED_ORIGIN" = "" then "*" else fx.getenv "ALLOWED_ORIGIN"

/-- The writer once the four CORS headers have been set on it. -/
def withCorsHeaders (origin : String) (w : ResponseWriter) : ResponseWriter :=
  (((w.setHeader "Access-Control-Allow-Origin" origin).setHeader
      "Access-Control-Allow-Methods" "GET, POST, PUT, DELETE, OPTIONS").setHeader
      "Access-Control-Allow-Headers" "Content-Type").setHeader
      "Access-Control-Allow-Credentials" "true"

/-- A handler instrumented to count its invocations in a second component of
the state. -/
def counting {σ : Type} (next : Handler σ) : Handler (σ × Nat) :=
  fun w r s => ((next w r s.1).1, ((next w r s.1).2, s.2 + 1))


/-- Substring containment with letter case ignored: the name, case-folded,
holds the filter, case-folded, as a contiguous run of characters. -/
def containsIgnoringCase (fold : Char → Char) (s name : String) : Prop :=
  s.data.map fold <:+: name.data.map fold

instance (fold : Char → Char) (s name : String) :
    Decidable (containsIgnoringCase fold s name) := by
  unfold containsIgnoringCase
  infer_instance

/-- The descending `updatedAt` order is total. -/
instance updatedAtDesc_total :
    IsTotal Certificate (fun a b => b.updatedAt ≤ a.updatedAt) :=
  ⟨fun a b => Nat.le_total b.updatedAt a.updatedAt⟩

/-- The descending `updatedAt` order is transitive. -/
instance updatedAtDesc_trans :
    IsTrans Certificate (fun a b => b.updatedAt ≤ a.updatedAt) :=
  ⟨fun _ _ _ hab hbc => Nat.le_trans hbc hab⟩

/-! ## Basic facts about the response writer -/

theorem statusCode_httpError (w : ResponseWriter) (msg : String) (code : Nat)
    (hw : w.status = none) : (httpError w msg code).statusCode = code := by
  simp [httpError, ResponseWriter.setHeader, ResponseWriter.WriteHeader, ResponseWriter.Write,
    ResponseWriter.statusCode, hw]

theorem statusCode_writeJSON (w : ResponseWriter) (p : Payload) (hw : w.status = none) :
    (writeJSON w p).statusCode = 200 := by
  simp [writeJSON, ResponseWriter.setHeader, ResponseWriter.WriteHeader, ResponseWriter.Write,
    ResponseWriter.statusCode, hw]

theorem body_writeJSON (w : ResponseWriter) (p : Payload) (hw : w.status = none) :
    (writeJSON w p).body = w.body ++ [p] := by
  simp [writeJSON, ResponseWriter.setHeader, ResponseWriter.WriteHeader, ResponseWriter.Write, hw]

/-! ## Saving -/

theorem any_id_false (ds : List Certificate) (oid : ObjectID)
    (h : ∀ d ∈ ds, d.id ≠ oid) : ds.any (fun d => d.id == oid) = false := by
  rw [List.any_eq_false]
  intro d hd
  simpa using h d hd

theorem any_id_true (ds : List Certificate) (oid : ObjectID)
    (h : ∃ d ∈ ds, d.id = oid) : ds.any (fun d => d.id == oid) = true := by
  rw [List.any_eq_true]
  obtain ⟨d, hd, hid⟩ := h
  exact ⟨d, hd, by simpa using hid⟩

theorem setFirst_split (oid : ObjectID) (f : Certificate → Certificate) (ds : List Certificate)
    (h : ∃ d ∈ ds, d.id = oid) :
    ∃ pre old post, ds = pre ++ old :: post ∧ old.id = oid ∧ (∀ d ∈ pre, d.id ≠ oid) ∧
      setFirst oid f ds = pre ++ f old :: post := by
  induction ds with
  | nil => simp at h
  | cons d ds ih =>
    by_cases hd : d.id = oid
    · exact ⟨[], d, ds, rfl, hd, by simp, by simp [setFirst, hd]⟩
    · have hrest : ∃ e ∈ ds, e.id = oid := by
        obtain ⟨e, he, heid⟩ := h
        rcases List.mem_cons.mp he with rfl | he2
        · exact absurd heid hd
        · exact ⟨e, he2, heid⟩
      obtain ⟨pre, old, post, hsplit, hold, hpre, hset⟩ := ih hrest
      refine ⟨d :: pre, old, post, by simp [hsplit], hold, ?_, by simp [setFirst, hd, hset]⟩
      intro e he
      rcases List.mem_cons.mp he with rfl | he2
      · exact hd
      · exact hpre e he2

theorem mem_setFirst (oid : ObjectID) (f : Certificate → Certificate) (ds : List Certificate)
    (d : Certificate) (h : d ∈ setFirst oid f ds) : d ∈ ds ∨ ∃ e ∈ ds, d = f e := by
  induction ds with
  | nil => simp [setFirst] at h
  | cons a ds ih =>
    by_cases ha : a.id = oid
    · simp only [setFirst, ha, if_true, List.mem_cons] at h
      rcases h with h | h
      · exact Or.inr ⟨a, List.mem_cons_self a ds, h⟩
      · exact Or.inl (List.mem_cons_of_mem a h)
    · simp only [setFirst, ha, if_false, List.mem_cons] at h
      rcases h with h | h
      · rw [h]
        exact Or.inl (List.mem_cons_self a ds)
      · rcases ih h with h2 | ⟨e, he, hde⟩
        · exact Or.inl (List.mem_cons_of_mem a h2)
        · exact Or.inr ⟨e, List.mem_cons_of_mem a he, hde⟩

theorem save_keeps_stamps (fx : Effects) (w : ResponseWriter) (r : Request) (st : Store)
    (t : Time) (hpast : ∀ d ∈ st.docs, d.updatedAt ≤ t) (hnow : fx.now 0 ≤ t) :
    ∀ d ∈ (handleSaveCertificate fx w r st).2.docs, d.updatedAt ≤ t := by
  intro d hd
  by_cases hm : r.method = "POST"
  · cases hb : r.body with
    | error e =>
      simp only [handleSaveCertificate, hm, hb, ne_eq, not_true_eq_false, if_false] at hd
      exact hpast d hd
    | ok c =>
      by_cases hn : c.name = ""
      · simp only [handleSaveCertificate, hm, hb, hn, ne_eq, not_true_eq_false, if_false,
          if_true] at hd
        exact hpast d hd
      · by_cases hz : c.id.IsZero = true
        · cases hs : fx.storeErr 0 with
          | some e =>
            simp only [handleSaveCertificate, hm, hb, hn, hz, InsertOne, hs, Store.record, ne_eq,
              not_true_eq_false, if_false, if_true] at hd
            exact hpast d hd
          | none =>
            by_cases hany : st.docs.any (fun d => d.id == fx.newID) = true
            · simp only [handleSaveCertificate, hm, hb, hn, hz, InsertOne, hs, Store.record,
                hany, ne_eq, not_true_eq_false, if_false, if_true] at hd
              exact hpast d hd
            · simp only [handleSaveCertificate, hm, hb, hn, hz, InsertOne, hs, Store.record,
                hany, ne_eq, not_true_eq_false, if_false, if_true] at hd
              have hd2 := List.mem_append.mp hd
              rcases hd2 with h | h
              · exact hpast d h
              · rw [List.mem_singleton.mp h]
                exact hnow
        · cases hs : fx.storeErr 0 with
          | some e =>
            simp only [handleSaveCertificate, hm, hb, hn, hz, UpdateByID, hs, Store.record,
              ne_eq, not_true_eq_false, if_false, if_true] at hd
            exact hpast d hd
          | none =>
            by_cases hany : st.docs.any (fun d => d.id == c.id) = true
            · simp only [handleSaveCertificate, hm, hb, hn, hz, UpdateByID, hs, Store.record,
                hany, ne_eq, not_true_eq_false, if_false, if_true] at hd
              rcases mem_setFirst _ _ _ _ hd with h | ⟨e, _, hde⟩
              · exact hpast d h
              · rw [hde]
                exact hnow
            · simp only [handleSaveCertificate, hm, hb, hn, hz, UpdateByID, hs, Store.record,
                hany, ne_eq, not_true_eq_false, if_false, if_true, Bool.false_eq_true] at hd
              exact hpast d hd
  · simp only [handleSaveCertificate, hm, ne_eq, not_false_eq_true, if_true] at hd
    exact hpast d hd

/-- C1: a POST whose body decodes to a certificate with an empty name is
answered with status 400, and the store (documents and operation log alike) is
exactly what it was: no insert and no update was issued. -/
theorem save_empty_name_rejected (fx : Effects) (w : ResponseWriter) (r : Request) (st : Store)
    (c : Certificate) (hw : w.status = none) (hm : r.method = "POST")
    (hb : r.body = Except.ok c) (hn : c.name = "") :
    (handleSaveCertificate fx w r st).1.statusCode = 400 ∧
      (handleSaveCertificate fx w r st).2 = st := by
  simp [handleSaveCertificate, hm, hb, hn, statusCode_httpError, hw]

/-- C1 at a concrete request: an empty name sent under the identifier of a stored record. -/
theorem save_empty_name_rejected_witness :
    (handleSaveCertificate (tickingClock 1000) {}
        { method := "POST", body := Except.ok { id := ⟨7⟩, name := "", bgImage := "b" } }
        { docs := [{ id := ⟨7⟩, name := "Old" }] }).1.statusCode = 400 ∧
      (handleSaveCertificate (tickingClock 1000) {}
        { method := "POST", body := Except.ok { id := ⟨7⟩, name := "", bgImage := "b" } }
        { docs := [{ id := ⟨7⟩, name := "Old" }] }).2 = { docs := [{ id := ⟨7⟩, name := "Old" }] } :=
  save_empty_name_rejected (tickingClock 1000) {} _ _
    { id := ⟨7⟩, name := "", bgImage := "b" } rfl rfl rfl rfl

/-- C2 (as stated, refuted): a create whose insert succeeds, served while the
clock ticks between the handler's two readings, stores a record whose
`createdAt` (1001) differs from its `updatedAt` (1000). -/
theorem save_create_timestamps_differ :
    createRequest.method = "POST" ∧
      createRequest.body = Except.ok { name := "Diploma" } ∧
      (handleSaveCertificate (tickingClock 1000) {} createRequest {}).1.statusCode = 200 ∧
      (handleSaveCertificate (tickingClock 1000) {} createRequest {}).2.docs =
        [{ id := ⟨1⟩, name := "Diploma", createdAt := 1001, updatedAt := 1000 }] ∧
      ¬ (∀ d ∈ (handleSaveCertificate (tickingClock 1000) {} createRequest {}).2.docs,
          d.createdAt = d.updatedAt) := by
  refine ⟨rfl, rfl, by decide, by decide, ?_⟩
  intro h
  have h1 := h { id := ⟨1⟩, name := "Diploma", createdAt := 1001, updatedAt := 1000 }
    (by decide)
  exact absurd h1 (by decide)

/-- C2 (amended): a POST with a non-empty name and a zero identifier whose
insert succeeds (no store fault, generated identifier not yet in use) is
answered 200; the store holds exactly one new record, appended to the old
ones; the response certificate is that record and carries the identifier the
store assigned; the record's `updatedAt` is the handler's first clock reading
and its `createdAt` the second, so the two are equal whenever the two readings
are. -/
theorem save_create (fx : Effects) (w : ResponseWriter) (r : Request) (st : Store)
    (c : Certificate) (hw : w.status = none) (hm : r.method = "POST")
    (hb : r.body = Except.ok c) (hn : c.name ≠ "") (hid : c.id.IsZero = true)
    (hok : fx.storeErr 0 = none) (hfresh : ∀ d ∈ st.docs, d.id ≠ fx.newID) :
    ∃ rec : Certificate,
      (handleSaveCertificate fx w r st).1.statusCode = 200 ∧
      (handleSaveCertificate fx w r st).2.docs = st.docs ++ [rec] ∧
      (handleSaveCertificate fx w r st).1.body = w.body ++ [Payload.certificate rec] ∧
      rec.id = fx.newID ∧
      rec.name = c.name ∧ rec.bgImage = c.bgImage ∧ rec.elements = c.elements ∧
      rec.updatedAt = fx.now 0 ∧ rec.createdAt = fx.now 1 ∧
      (fx.now 0 = fx.now 1 → rec.createdAt = rec.updatedAt) := by
  refine ⟨{ c with id := fx.newID, updatedAt := fx.now 0, createdAt := fx.now 1 }, ?_⟩
  have hany := any_id_false st.docs fx.newID hfresh
  simp [handleSaveCertificate, hm, hb, hn, hid, InsertOne, hok, hany, Store.record,
    statusCode_writeJSON, body_writeJSON, hw]
  intro h
  exact h.symm

/-- C2 (amended) at a concrete request: a create on the empty collection. -/
theorem save_create_witness :
    ∃ rec : Certificate,
      (handleSaveCertificate (tickingClock 1000) {} createRequest {}).1.statusCode = 200 ∧
      (handleSaveCertificate (tickingClock 1000) {} createRequest {}).2.docs =
        ({} : Store).docs ++ [rec] ∧
      (handleSaveCertificate (tickingClock 1000) {} createRequest {}).1.body =
        ({} : ResponseWriter).body ++ [Payload.certificate rec] ∧
      rec.id = (tickingClock 1000).newID ∧
      rec.name = "Diploma" ∧ rec.bgImage = "" ∧ rec.elements = [] ∧
      rec.updatedAt = (tickingClock 1000).now 0 ∧ rec.createdAt = (tickingClock 1000).now 1 ∧
      ((tickingClock 1000).now 0 = (tickingClock 1000).now 1 → rec.createdAt = rec.updatedAt) :=
  save_create (tickingClock 1000) {} createRequest {} { name := "Diploma" }
    rfl rfl rfl (by decide) rfl rfl (by simp)

/-- C3: a POST with a non-empty name and the identifier of a stored record,
whose update succeeds, replaces that record in place: its name, background
image and elements become the request's, its `updatedAt` becomes the current
clock reading (not earlier than the previous `updatedAt` whenever that one is
not later than the reading, as under a non-decreasing clock), its identifier
and `createdAt` stay, every other record keeps its value and position, and the
number of records is unchanged. If no stored `updatedAt` was later than the
reading, none is afterwards, so the premise on the clock carries over to the
next save. -/
theorem save_update_in_place (fx : Effects) (w : ResponseWriter) (r : Request) (st : Store)
    (c : Certificate) (hw : w.status = none) (hm : r.method = "POST")
    (hb : r.body = Except.ok c) (hn : c.name ≠ "") (hid : c.id.IsZero = false)
    (hex : ∃ d ∈ st.docs, d.id = c.id) (hok : fx.storeErr 0 = none) :
    ∃ (pre : List Certificate) (old new : Certificate) (post : List Certificate),
      st.docs = pre ++ old :: post ∧ old.id = c.id ∧ (∀ d ∈ pre, d.id ≠ c.id) ∧
      (handleSaveCertificate fx w r st).2.docs = pre ++ new :: post ∧
      new.name = c.name ∧ new.bgImage = c.bgImage ∧ new.elements = c.elements ∧
      new.updatedAt = fx.now 0 ∧ (old.updatedAt ≤ fx.now 0 → old.updatedAt ≤ new.updatedAt) ∧
      new.id = old.id ∧ new.createdAt = old.createdAt ∧
      (handleSaveCertificate fx w r st).2.docs.length = st.docs.length ∧
      (handleSaveCertificate fx w r st).1.statusCode = 200 ∧
      ((∀ d ∈ st.docs, d.updatedAt ≤ fx.now 0) →
        ∀ d ∈ (handleSaveCertificate fx w r st).2.docs, d.updatedAt ≤ fx.now 0) := by
  have hany := any_id_true st.docs c.id hex
  have hout : handleSaveCertificate fx w r st =
      (writeJSON w (Payload.certificate { c with updatedAt := fx.now 0 }),
        { docs := setFirst c.id (UpdateSet.apply ⟨c.name, c.bgImage, c.elements, fx.now 0⟩) st.docs,
          calls := st.calls ++
            [StoreCall.updateByID c.id ⟨c.name, c.bgImage, c.elements, fx.now 0⟩ false] }) := by
    simp [handleSaveCertificate, hm, hb, hn, hid, UpdateByID, hok, hany, Store.record]
  obtain ⟨pre, old, post, hsplit, hold, hpre, hset⟩ :=
    setFirst_split c.id
      (UpdateSet.apply ⟨c.name, c.bgImage, c.elements, fx.now 0⟩) st.docs hex
  refine ⟨pre, old, UpdateSet.apply ⟨c.name, c.bgImage, c.elements, fx.now 0⟩ old, post,
    hsplit, hold, hpre, ?_, rfl, rfl, rfl, rfl, ?_, rfl, rfl, ?_, ?_,
    fun hp => save_keeps_stamps fx w r st (fx.now 0) hp (Nat.le_refl _)⟩
  · rw [hout]
    exact hset
  · intro h
    exact h
  · rw [hout]
    show (setFirst c.id _ st.docs).length = st.docs.length
    rw [hset, hsplit]
    simp
  · rw [hout]
    exact statusCode_writeJSON w _ hw

/-- C3 at a concrete request: the second of two records is renamed. -/
theorem save_update_in_place_witness :
    ∃ (pre : List Certificate) (old new : Certificate) (post : List Certificate),
      twoRecords.docs = pre ++ old :: post ∧ old.id = ⟨7⟩ ∧ (∀ d ∈ pre, d.id ≠ ⟨7⟩) ∧
      (handleSaveCertificate (tickingClock 2000) {} updateRequest twoRecords).2.docs =
        pre ++ new :: post ∧
      new.name = "Renamed" ∧ new.bgImage = "bg.png" ∧ new.elements = [] ∧
      new.updatedAt = 2000 ∧ (old.updatedAt ≤ 2000 → old.updatedAt ≤ new.updatedAt) ∧
      new.id = old.id ∧ new.createdAt = old.createdAt ∧
      (handleSaveCertificate (tickingClock 2000) {} updateRequest twoRecords).2.docs.length =
        twoRecords.docs.length ∧
      (handleSaveCertificate (tickingClock 2000) {} updateRequest twoRecords).1.statusCode = 200 ∧
      ((∀ d ∈ twoRecords.docs, d.updatedAt ≤ 2000) →
        ∀ d ∈ (handleSaveCertificate (tickingClock 2000) {} updateRequest twoRecords).2.docs,
          d.updatedAt ≤ 2000) :=
  save_update_in_place (tickingClock 2000) {} updateRequest twoRecords
    { id := ⟨7⟩, name := "Renamed", bgImage := "bg.png" } rfl rfl rfl (by decide) rfl
    ⟨{ id := ⟨7⟩, name := "Second", createdAt := 30, updatedAt := 40 }, by decide, rfl⟩ rfl

/-- C10: a POST with a non-empty name and a non-zero identifier that no stored
record has, when the store reports no fault, issues one update by identifier
without upsert; the documents are left exactly as they were, and the response
is nevertheless 200 and carries the request's certificate, identifier
included, with `updatedAt` set to the current clock reading. -/
theorem save_update_unknown_id (fx : Effects) (w : ResponseWriter) (r : Request) (st : Store)
    (c : Certificate) (hw : w.status = none) (hm : r.method = "POST")
    (hb : r.body = Except.ok c) (hn : c.name ≠ "") (hid : c.id.IsZero = false)
    (hno : ∀ d ∈ st.docs, d.id ≠ c.id) (hok : fx.storeErr 0 = none) :
    (handleSaveCertificate fx w r st).2.docs = st.docs ∧
      (handleSaveCertificate fx w r st).2.calls =
        st.calls ++ [StoreCall.updateByID c.id ⟨c.name, c.bgImage, c.elements, fx.now 0⟩ false] ∧
      (handleSaveCertificate fx w r st).1.statusCode = 200 ∧
      (handleSaveCertificate fx w r st).1.body =
        w.body ++ [Payload.certificate { c with updatedAt := fx.now 0 }] := by
  have hany := any_id_false st.docs c.id hno
  have hout : handleSaveCertificate fx w r st =
      (writeJSON w (Payload.certificate { c with updatedAt := fx.now 0 }),
        { docs := st.docs,
          calls := st.calls ++
            [StoreCall.updateByID c.id ⟨c.name, c.bgImage, c.elements, fx.now 0⟩ false] }) := by
    simp [handleSaveCertificate, hm, hb, hn, hid, UpdateByID, hok, hany, Store.record]
  rw [hout]
  exact ⟨rfl, rfl, statusCode_writeJSON w _ hw, body_writeJSON w _ hw⟩

/-- C10 at a concrete request: identifier 7 sent to a collection that only holds identifier 5. -/
theorem save_update_unknown_id_witness :
    (handleSaveCertificate (tickingClock 2000) {} updateRequest oneRecord).2.docs =
        oneRecord.docs ∧
      (handleSaveCertificate (tickingClock 2000) {} updateRequest oneRecord).2.calls =
        oneRecord.calls ++ [StoreCall.updateByID ⟨7⟩ ⟨"Renamed", "bg.png", [], 2000⟩ false] ∧
      (handleSaveCertificate (tickingClock 2000) {} updateRequest oneRecord).1.statusCode = 200 ∧
      (handleSaveCertificate (tickingClock 2000) {} updateRequest oneRecord).1.body =
        [Payload.certificate { id := ⟨7⟩, name := "Renamed", bgImage := "bg.png",
                               updatedAt := 2000 }] :=
  save_update_unknown_id (tickingClock 2000) {} updateRequest oneRecord
    { id := ⟨7⟩, name := "Renamed", bgImage := "bg.png" } rfl rfl rfl (by decide) rfl
    (by decide) rfl

/-! ## Loading by identifier -/

theorem queryGet_missing (r : Request) (key : String) (h : ∀ kv ∈ r.query, kv.1 ≠ key) :
    r.queryGet key = "" := by
  have hnone : r.query.find? (fun kv => kv.1 == key) = none := by
    rw [List.find?_eq_none]
    intro kv hkv
    simpa using h kv hkv
  simp [Request.queryGet, hnone]

theorem find?_id_none (ds : List Certificate) (oid : ObjectID)
    (h : ∀ d ∈ ds, d.id ≠ oid) : ds.find? (fun d => d.id == oid) = none := by
  rw [List.find?_eq_none]
  intro d hd
  simpa using h d hd

theorem ObjectIDFromHex_empty : ObjectIDFromHex "" = Except.error
    "the provided hex string is not a valid ObjectID" := by
  rfl

/-- C4: for a GET to the load handler, (a) when the `id` parameter is missing,
empty or not a valid hexadecimal identifier, the status is 400 and the store
received no call (its documents and its log are unchanged); (b) when the id is
well-formed, the lookup reports no fault and no stored record has that
identifier, the status is 404; (c) the status is 500 only when the id is
well-formed and the store lookup failed with an error other than "no
documents". -/
theorem load_status_contract (fx : Effects) (w : ResponseWriter) (r : Request) (st : Store)
    (hw : w.status = none) (hm : r.method = "GET") :
    (((∀ kv ∈ r.query, kv.1 ≠ "id") ∨ r.queryGet "id" = "" ∨
          ∃ e, ObjectIDFromHex (r.queryGet "id") = Except.error e) →
        (handleLoadCertificate fx w r st).1.statusCode = 400 ∧
          (handleLoadCertificate fx w r st).2 = st) ∧
      (∀ oid, ObjectIDFromHex (r.queryGet "id") = Except.ok oid →
        (∀ d ∈ st.docs, d.id ≠ oid) → fx.storeErr 0 = none →
        (handleLoadCertificate fx w r st).1.statusCode = 404) ∧
      ((handleLoadCertificate fx w r st).1.statusCode = 500 →
        ∃ oid err, ObjectIDFromHex (r.queryGet "id") = Except.ok oid ∧
          (FindOne fx 0 st (Filter.byID oid)).1 = Except.error err ∧
          err ≠ StoreError.noDocuments) := by
  refine ⟨?_, ?_, ?_⟩
  · intro h
    have hbad : r.queryGet "id" = "" ∨ ∃ e, ObjectIDFromHex (r.queryGet "id") = Except.error e := by
      rcases h with h | h | h
      · exact Or.inl (queryGet_missing r "id" h)
      · exact Or.inl h
      · exact Or.inr h
    rcases hbad with hq | ⟨e, he⟩
    · simp [handleLoadCertificate, hm, hq, statusCode_httpError, hw]
    · by_cases hq : r.queryGet "id" = ""
      · simp [handleLoadCertificate, hm, hq, statusCode_httpError, hw]
      · simp [handleLoadCertificate, hm, hq, he, statusCode_httpError, hw]
  · intro oid hoid hno hok
    have hq : r.queryGet "id" ≠ "" := by
      intro hq
      rw [hq, ObjectIDFromHex_empty] at hoid
      cases hoid
    simp [handleLoadCertificate, hm, hq, hoid, FindOne, hok, Filter.compile,
      find?_id_none st.docs oid hno, statusCode_httpError, hw]
  · intro h500
    by_cases hq : r.queryGet "id" = ""
    · simp [handleLoadCertificate, hm, hq, statusCode_httpError, hw] at h500
    · cases hx : ObjectIDFromHex (r.queryGet "id") with
      | error e => simp [handleLoadCertificate, hm, hq, hx, statusCode_httpError, hw] at h500
      | ok oid =>
        cases hs : fx.storeErr 0 with
        | some e =>
          refine ⟨oid, StoreError.other e, rfl, ?_, ?_⟩
          · simp [FindOne, hs]
          · intro h
            cases h
        | none =>
          cases hf : st.docs.find? (fun d => d.id == oid) with
          | none =>
            simp [handleLoadCertificate, hm, hq, hx, FindOne, hs, Filter.compile, hf,
              statusCode_httpError, hw] at h500
          | some d =>
            simp [handleLoadCertificate, hm, hq, hx, FindOne, hs, Filter.compile, hf,
              statusCode_writeJSON, hw] at h500

/-- C4 at two concrete requests: a malformed identifier, and a well-formed one that is not stored. -/
theorem load_status_contract_witness :
    ((handleLoadCertificate (tickingClock 0) {} badIdRequest oneRecord).1.statusCode = 400 ∧
        (handleLoadCertificate (tickingClock 0) {} badIdRequest oneRecord).2 = oneRecord) ∧
      (handleLoadCertificate (tickingClock 0) {} loadRequest oneRecord).1.statusCode = 404 :=
  ⟨(load_status_contract (tickingClock 0) {} badIdRequest oneRecord rfl rfl).1
      (Or.inr (Or.inr ⟨_, rfl⟩)),
    (load_status_contract (tickingClock 0) {} loadRequest oneRecord rfl rfl).2.1
      ⟨24912482966938930280208240657⟩ rfl (by decide) rfl⟩

/-! ## Listing -/

/-- C6: a GET to the list handler with no `name` parameter, or an empty one,
when the store reports no fault, sends the store one find with the empty
match-all filter sorted by `updatedAt` descending, and answers 200 with a list
that is a rearrangement of the stored certificates (each exactly once) in
which every certificate has an `updatedAt` not smaller than that of any
certificate after it. -/
theorem list_all_sorted (fx : Effects) (w : ResponseWriter) (r : Request) (st : Store)
    (hw : w.status = none)
    (hq : (∀ kv ∈ r.query, kv.1 ≠ "name") ∨ r.queryGet "name" = "")
    (h0 : fx.storeErr 0 = none) (h1 : fx.storeErr 1 = none) :
    ∃ cs : List Certificate,
      (handleListCertificates fx w r st).1.body = w.body ++ [Payload.certificates cs] ∧
      (handleListCertificates fx w r st).1.statusCode = 200 ∧
      (handleListCertificates fx w r st).2.calls =
        st.calls ++ [StoreCall.find Filter.all (SortSpec.updatedAt (-1))] ∧
      (handleListCertificates fx w r st).2.docs = st.docs ∧
      cs.Perm st.docs ∧
      cs.Pairwise (fun a b => b.updatedAt ≤ a.updatedAt) := by
  have hname : r.queryGet "name" = "" := by
    rcases hq with h | h
    · exact queryGet_missing r "name" h
    · exact h
  refine ⟨st.docs.insertionSort (fun a b => b.updatedAt ≤ a.updatedAt), ?_, ?_, ?_, ?_, ?_, ?_⟩
  · simp [handleListCertificates, hname, Find, h0, h1, Filter.compile, SortSpec.apply,
      body_writeJSON, hw]
  · simp [handleListCertificates, hname, Find, h0, h1, Filter.compile, SortSpec.apply,
      statusCode_writeJSON, hw]
  · simp [handleListCertificates, hname, Find, h0, h1, Filter.compile, SortSpec.apply,
      Store.record]
  · simp [handleListCertificates, hname, Find, h0, h1, Filter.compile, SortSpec.apply,
      Store.record]
  · exact List.perm_insertionSort _ st.docs
  · exact List.sorted_insertionSort _ st.docs

/-- C6 at a concrete request: three records listed without filter. -/
theorem list_all_sorted_witness :
    ∃ cs : List Certificate,
      (handleListCertificates (tickingClock 0) {} listRequest threeRecords).1.body =
        ({} : ResponseWriter).body ++ [Payload.certificates cs] ∧
      (handleListCertificates (tickingClock 0) {} listRequest threeRecords).1.statusCode = 200 ∧
      (handleListCertificates (tickingClock 0) {} listRequest threeRecords).2.calls =
        threeRecords.calls ++ [StoreCall.find Filter.all (SortSpec.updatedAt (-1))] ∧
      (handleListCertificates (tickingClock 0) {} listRequest threeRecords).2.docs =
        threeRecords.docs ∧
      cs.Perm threeRecords.docs ∧
      cs.Pairwise (fun a b => b.updatedAt ≤ a.updatedAt) :=
  list_all_sorted (tickingClock 0) {} listRequest threeRecords rfl (Or.inr rfl) rfl rfl

theorem matchHere_literal (fold : Char → Char) (ps : List Char) (hp : ∀ p ∈ ps, p ≠ '.')
    (ts : List Char) :
    matchHere fold true ps ts = true ↔ ps.map fold <+: ts.map fold := by
  induction ps generalizing ts with
  | nil => simp [matchHere]
  | cons p ps ih =>
    have hp1 : p ≠ '.' := hp p (List.mem_cons_self p ps)
    have hrest : ∀ q ∈ ps, q ≠ '.' := fun q hq => hp q (List.mem_cons_of_mem p hq)
    cases ts with
    | nil => simp [matchHere]
    | cons t ts =>
      simp [matchHere, atomMatches, hp1, ih hrest ts]

theorem matchAnywhere_literal (fold : Char → Char) (ps : List Char) (hp : ∀ p ∈ ps, p ≠ '.')
    (ts : List Char) :
    matchAnywhere fold true ps ts = true ↔ ps.map fold <:+: ts.map fold := by
  induction ts with
  | nil =>
    simp [matchAnywhere, matchHere_literal fold ps hp]
  | cons t ts ih =>
    simp only [matchAnywhere, Bool.or_eq_true, matchHere_literal fold ps hp, ih, List.map_cons]
    exact List.infix_cons_iff.symm

theorem literal_not_dot (s : String) (hlit : ∀ ch ∈ s.data, isRegexMeta ch = false) :
    ∀ p ∈ s.data, p ≠ '.' := by
  intro p hp hdot
  have h := hlit p hp
  rw [hdot] at h
  exact absurd h (by decide)

theorem inFragment_literal (s : String) (hlit : ∀ ch ∈ s.data, isRegexMeta ch = false) :
    inFragment s "i" = true := by
  simp only [inFragment, Bool.and_eq_true, List.all_eq_true]
  refine ⟨?_, by decide⟩
  intro ch hch
  simp [hlit ch hch]

/-- C5 (as stated, refuted): with the filter `.` the list handler returns the
stored certificate named "First", although "First" does not contain a dot:
the filter is handed to the store as a regular expression, in which the dot
stands for any character. -/
theorem list_filter_dot_matches_everything :
    dotRequest.queryGet "name" = "." ∧
      (handleListCertificates (tickingClock 0) {} dotRequest oneRecord).1.body =
        [Payload.certificates [{ id := ⟨5⟩, name := "First", createdAt := 10, updatedAt := 20 }]] ∧
      ¬ containsIgnoringCase (tickingClock 0).caseFold "." "First" := by
  refine ⟨rfl, by decide, by decide⟩

/-- C5 (amended): for every non-empty filter `s` that contains no
regular-expression metacharacter (none of the characters listed in
`isRegexMeta`), and every store state, when the store reports no fault the
list handler answers 200 with a list that holds a certificate if and only if
it is stored and its name contains `s` as a substring when letter case is
ignored. -/
theorem list_filter_literal (fx : Effects) (w : ResponseWriter) (r : Request) (st : Store)
    (s : String) (hw : w.status = none) (hq : r.queryGet "name" = s) (hne : s ≠ "")
    (hlit : ∀ ch ∈ s.data, isRegexMeta ch = false)
    (h0 : fx.storeErr 0 = none) (h1 : fx.storeErr 1 = none) :
    ∃ cs : List Certificate,
      (handleListCertificates fx w r st).1.body = w.body ++ [Payload.certificates cs] ∧
      (handleListCertificates fx w r st).1.statusCode = 200 ∧
      (handleListCertificates fx w r st).2.docs = st.docs ∧
      ∀ d : Certificate,
        d ∈ cs ↔ (d ∈ st.docs ∧ containsIgnoringCase fx.caseFold s d.name) := by
  have hfrag := inFragment_literal s hlit
  have hout : handleListCertificates fx w r st =
      (writeJSON w (Payload.certificates
          ((st.docs.filter
              (fun d => matchAnywhere fx.caseFold true s.data d.name.data)).insertionSort
            (fun a b => b.updatedAt ≤ a.updatedAt))),
        st.record (StoreCall.find (Filter.nameRegex s "i") (SortSpec.updatedAt (-1)))) := by
    simp [handleListCertificates, hq, hne, Find, h0, h1, Filter.compile, regexSearch, hfrag,
      SortSpec.apply]
  refine ⟨(st.docs.filter
      (fun d => matchAnywhere fx.caseFold true s.data d.name.data)).insertionSort
      (fun a b => b.updatedAt ≤ a.updatedAt), ?_, ?_, ?_, ?_⟩
  · rw [hout]
    exact body_writeJSON w _ hw
  · rw [hout]
    exact statusCode_writeJSON w _ hw
  · rw [hout]
    rfl
  · intro d
    rw [List.mem_insertionSort, List.mem_filter,
      matchAnywhere_literal fx.caseFold s.data (literal_not_dot s hlit) d.name.data]
    rfl

/-- C5 (amended) at a concrete request: the filter `CERT` on three records. -/
theorem list_filter_literal_witness :
    ∃ cs : List Certificate,
      (handleListCertificates (tickingClock 0) {} certRequest threeRecords).1.body =
        ({} : ResponseWriter).body ++ [Payload.certificates cs] ∧
      (handleListCertificates (tickingClock 0) {} certRequest threeRecords).1.statusCode = 200 ∧
      (handleListCertificates (tickingClock 0) {} certRequest threeRecords).2.docs =
        threeRecords.docs ∧
      ∀ d : Certificate,
        d ∈ cs ↔ (d ∈ threeRecords.docs ∧ containsIgnoringCase Char.toLower "CERT" d.name) :=
  list_filter_literal (tickingClock 0) {} certRequest threeRecords "CERT" rfl rfl (by decide)
    (by decide) rfl rfl

/-! ## The default certificate and startup -/

/-- C7 (as stated, refuted): two calls of the default-certificate handler at
two different times return certificates that still differ once the content of
the date element is blanked, because `createdAt` (and `updatedAt`) are clock
readings: 1 in the first response, 86400001 in the second. -/
theorem default_certificate_timestamps_differ :
    (returnedCertificate
          (handleDefaultCertificate (tickingClock 0) {} defaultRequest {}).1).map eraseDateContent ≠
        (returnedCertificate
          (handleDefaultCertificate (tickingClock 86400000) {} defaultRequest {}).1).map
            eraseDateContent ∧
      (returnedCertificate
          (handleDefaultCertificate (tickingClock 0) {} defaultRequest {}).1).map
            Certificate.createdAt = some 1 ∧
      (returnedCertificate
          (handleDefaultCertificate (tickingClock 86400000) {} defaultRequest {}).1).map
            Certificate.createdAt = some 86400001 := by
  refine ⟨?_, rfl, rfl⟩
  intro h
  have h2 := congrArg (Option.map Certificate.createdAt) h
  exact absurd h2 (by decide)

/-- C7 (amended): every GET to the default-certificate handler, at any time,
on any writer, request and store, answers 200 with a certificate of exactly
five elements whose ids are, in order, title, recipient, description, date,
signature, and leaves the store untouched; for any two calls at any two
times, each with its own writer, request and store, the two certificates agree
in identifier, name, background image and, once the content string of the date
element is ignored, in every field of every element (`createdAt` and
`updatedAt` are clock readings and are not compared). -/
theorem default_certificate_fixed (fx gx : Effects) (w1 w2 : ResponseWriter)
    (r1 r2 : Request) (st1 st2 : Store)
    (hw1 : w1.status = none) (hw2 : w2.status = none)
    (hm1 : r1.method = "GET") (hm2 : r2.method = "GET") :
    ∃ c1 c2 : Certificate,
      (handleDefaultCertificate fx w1 r1 st1).1.body = w1.body ++ [Payload.certificate c1] ∧
      (handleDefaultCertificate gx w2 r2 st2).1.body = w2.body ++ [Payload.certificate c2] ∧
      (handleDefaultCertificate fx w1 r1 st1).1.statusCode = 200 ∧
      (handleDefaultCertificate gx w2 r2 st2).1.statusCode = 200 ∧
      (handleDefaultCertificate fx w1 r1 st1).2 = st1 ∧
      (handleDefaultCertificate gx w2 r2 st2).2 = st2 ∧
      c1.elements.length = 5 ∧
      c2.elements.length = 5 ∧
      c1.elements.map (fun e => e.id) =
        ["title", "recipient", "description", "date", "signature"] ∧
      c2.elements.map (fun e => e.id) =
        ["title", "recipient", "description", "date", "signature"] ∧
      c1.id = c2.id ∧ c1.name = c2.name ∧ c1.bgImage = c2.bgImage ∧
      (eraseDateContent c1).elements = (eraseDateContent c2).elements := by
  simp only [handleDefaultCertificate, hm1, hm2, ne_eq, not_true_eq_false, if_false]
  refine ⟨_, _, body_writeJSON w1 _ hw1, body_writeJSON w2 _ hw2,
    statusCode_writeJSON w1 _ hw1, statusCode_writeJSON w2 _ hw2, ?_⟩
  simp [eraseDateContent]

/-- C7 (amended) at two concrete calls, one day apart, the first on the empty
collection, the second on a collection of three records, with another writer
and another request. -/
theorem default_certificate_fixed_witness :
    ∃ c1 c2 : Certificate,
      (handleDefaultCertificate (tickingClock 0) {} defaultRequest {}).1.body =
        ({} : ResponseWriter).body ++ [Payload.certificate c1] ∧
      (handleDefaultCertificate (tickingClock 86400000) tracedWriter listRequest
          threeRecords).1.body =
        tracedWriter.body ++ [Payload.certificate c2] ∧
      (handleDefaultCertificate (tickingClock 0) {} defaultRequest {}).1.statusCode = 200 ∧
      (handleDefaultCertificate (tickingClock 86400000) tracedWriter listRequest
          threeRecords).1.statusCode = 200 ∧
      (handleDefaultCertificate (tickingClock 0) {} defaultRequest {}).2 = {} ∧
      (handleDefaultCertificate (tickingClock 86400000) tracedWriter listRequest
          threeRecords).2 = threeRecords ∧
      c1.elements.length = 5 ∧
      c2.elements.length = 5 ∧
      c1.elements.map (fun e => e.id) =
        ["title", "recipient", "description", "date", "signature"] ∧
      c2.elements.map (fun e => e.id) =
        ["title", "recipient", "description", "date", "signature"] ∧
      c1.id = c2.id ∧ c1.name = c2.name ∧ c1.bgImage = c2.bgImage ∧
      (eraseDateContent c1).elements = (eraseDateContent c2).elements :=
  default_certificate_fixed (tickingClock 0) (tickingClock 86400000) {} tracedWriter
    defaultRequest listRequest {} threeRecords rfl rfl rfl rfl

/-- C8: when startup finds the collection empty (and no store call fails) the
process goes on to serve with exactly one stored certificate, whose name,
background image and element list (every field of every element, in order)
are those of the certificate the default-certificate handler of the same
process returns at the same clock reading; when the
collection is not empty, startup leaves the documents as they were and sends
the store no insert, whatever else happens. -/
theorem init_seeds_default (fx gx : Effects) (st : Store) (w : ResponseWriter) (r : Request)
    (sh : Store) (hw : w.status = none) (hm : r.method = "GET")
    (hclock : gx.now 0 = fx.now 0) (hzone : gx.formatDate = fx.formatDate) :
    (st.docs = [] → (∀ k, k < 5 → fx.storeErr k = none) →
        ∃ seeded served : Certificate,
          (init fx st).1 = Startup.serving ∧
          (init fx st).2.docs = [seeded] ∧
          (handleDefaultCertificate gx w r sh).1.body = w.body ++ [Payload.certificate served] ∧
          seeded.name = served.name ∧ seeded.bgImage = served.bgImage ∧
          seeded.elements = served.elements) ∧
      (st.docs ≠ [] →
        (init fx st).2.docs = st.docs ∧
        ∀ d, StoreCall.insertOne d ∈ (init fx st).2.calls → StoreCall.insertOne d ∈ st.calls) := by
  constructor
  · intro hempty hok
    have h0 := hok 0 (by decide)
    have h1 := hok 1 (by decide)
    have h2 := hok 2 (by decide)
    have h3 := hok 3 (by decide)
    have h4 := hok 4 (by decide)
    have hinit : init fx st = insertDefaultCertificate fx 4
        ((((st.record StoreCall.connect).record StoreCall.ping).record
          (StoreCall.createIndex "name")).record (StoreCall.countDocuments Filter.all)) := by
      simp [init, storeStep, CountDocuments, Filter.compile, Store.record, hempty, h0, h1, h2, h3]
    rw [hinit]
    simp only [handleDefaultCertificate, hm, ne_eq, not_true_eq_false, if_false,
      insertDefaultCertificate, InsertOne, Store.record, hempty, h4, List.any_nil,
      Bool.false_eq_true, List.nil_append]
    refine ⟨?seeded, ?served, ?hserving, ?hdocs, ?hbody, ?hname, ?hbg, ?hel⟩
    case hdocs => exact rfl
    case hbody => exact body_writeJSON w _ hw
    case hserving => trivial
    case hname => rfl
    case hbg => rfl
    case hel => simp only [hclock, hzone]
  · intro hne
    have hlen : st.docs.length ≠ 0 := by
      intro h
      exact hne (List.length_eq_zero.mp h)
    cases h0 : fx.storeErr 0 with
    | some e => simp [init, storeStep, Store.record, h0]
    | none =>
      cases h1 : fx.storeErr 1 with
      | some e => simp [init, storeStep, Store.record, h0, h1]
      | none =>
        cases h2 : fx.storeErr 2 with
        | some e => simp [init, storeStep, Store.record, h0, h1, h2]
        | none =>
          cases h3 : fx.storeErr 3 with
          | some e =>
            simp [init, storeStep, Store.record, h0, h1, h2, h3, CountDocuments]
          | none =>
            simp [init, storeStep, Store.record, h0, h1, h2, h3, CountDocuments,
              Filter.compile, hlen]

/-- C8 at two concrete collections: the empty one, which is seeded, and one
that holds a record, which is left alone. -/
theorem init_seeds_default_witness :
    (∃ seeded served : Certificate,
        (init (tickingClock 0) {}).1 = Startup.serving ∧
        (init (tickingClock 0) {}).2.docs = [seeded] ∧
        (handleDefaultCertificate (tickingClock 0) tracedWriter defaultRequest
            threeRecords).1.body =
          tracedWriter.body ++ [Payload.certificate served] ∧
        seeded.name = served.name ∧ seeded.bgImage = served.bgImage ∧
        seeded.elements = served.elements) ∧
      ((init (tickingClock 0) oneRecord).2.docs = oneRecord.docs ∧
        ∀ d, StoreCall.insertOne d ∈ (init (tickingClock 0) oneRecord).2.calls →
          StoreCall.insertOne d ∈ oneRecord.calls) :=
  ⟨(init_seeds_default (tickingClock 0) (tickingClock 0) {} tracedWriter defaultRequest
      threeRecords rfl rfl rfl rfl).1 rfl (fun _ _ => rfl),
    (init_seeds_default (tickingClock 0) (tickingClock 0) oneRecord {} defaultRequest {}
      rfl rfl rfl rfl).2 (by decide)⟩

/-! ## Routing and CORS -/

theorem find?_header_filter (h : List (String × String)) (key other : String)
    (hne : key ≠ other) :
    (h.filter (fun kv => kv.1 != other)).find? (fun kv => kv.1 == key) =
      h.find? (fun kv => kv.1 == key) := by
  induction h with
  | nil => rfl
  | cons kv rest ih =>
    by_cases ho : kv.1 = other
    · have hk : (kv.1 == key) = false := by
        rw [beq_eq_false_iff_ne, ho]
        exact Ne.symm hne
      have hdrop : (kv.1 != other) = false := by simp [ho]
      simp only [List.filter_cons, hdrop, List.find?_cons, hk]
      exact ih
    · have hkeep : (kv.1 != other) = true := by simp [ho]
      simp only [List.filter_cons, hkeep, if_true, List.find?_cons, ih]

theorem find?_header_removed (h : List (String × String)) (key : String) :
    (h.filter (fun kv => kv.1 != key)).find? (fun kv => kv.1 == key) = none := by
  rw [List.find?_eq_none]
  intro kv hkv
  have hk := (List.mem_filter.mp hkv).2
  simpa using hk

theorem getHeader_setHeader_same (w : ResponseWriter) (key value : String) :
    (w.setHeader key value).getHeader key = value := by
  simp only [ResponseWriter.getHeader, ResponseWriter.setHeader, List.find?_append,
    find?_header_removed]
  simp

theorem getHeader_setHeader_other (w : ResponseWriter) (key other value : String)
    (hne : key ≠ other) :
    (w.setHeader other value).getHeader key = w.getHeader key := by
  have hlast : [(other, value)].find? (fun kv => kv.1 == key) = none := by
    simp [Ne.symm hne]
  simp only [ResponseWriter.getHeader, ResponseWriter.setHeader, List.find?_append,
    find?_header_filter w.header key other hne, hlast, Option.or_none]

/-- C9: for every wrapped handler, the CORS decorator first sets the four
headers (allowed origin: the `ALLOWED_ORIGIN` setting, or `*` when that is
empty; the fixed allowed methods, allowed headers and credentials flag). For a
request whose method is OPTIONS it then answers status 200, writes no body,
leaves the server state alone and does not invoke the wrapped handler (an
instrumented handler's invocation count is unchanged); for any other method
its result is exactly one invocation of the wrapped handler on the same
request (the count goes up by one). Every registered route is served through
the decorator, so an OPTIONS request on a registered path gets this answer. -/
theorem cors_contract {σ : Type} (fx : Effects) (next : Handler σ) (w : ResponseWriter)
    (r : Request) (s : σ) (n : Nat) (st : Store) (hw : w.status = none) :
    ((withCorsHeaders (allowedOrigin fx) w).getHeader "Access-Control-Allow-Origin" =
          allowedOrigin fx ∧
        (withCorsHeaders (allowedOrigin fx) w).getHeader "Access-Control-Allow-Methods" =
          "GET, POST, PUT, DELETE, OPTIONS" ∧
        (withCorsHeaders (allowedOrigin fx) w).getHeader "Access-Control-Allow-Headers" =
          "Content-Type" ∧
        (withCorsHeaders (allowedOrigin fx) w).getHeader "Access-Control-Allow-Credentials" =
          "true" ∧
        (fx.getenv "ALLOWED_ORIGIN" = "" → allowedOrigin fx = "*") ∧
        (fx.getenv "ALLOWED_ORIGIN" ≠ "" → allowedOrigin fx = fx.getenv "ALLOWED_ORIGIN")) ∧
      (r.method = "OPTIONS" →
        corsMiddleware fx next w r s =
            ({ withCorsHeaders (allowedOrigin fx) w with status := some 200 }, s) ∧
          (corsMiddleware fx next w r s).1.statusCode = 200 ∧
          (corsMiddleware fx next w r s).1.body = w.body ∧
          (corsMiddleware fx (counting next) w r (s, n)).2.2 = n ∧
          (r.path ∈ (routes fx).map Prod.fst →
            serve fx w r st =
              ({ withCorsHeaders (allowedOrigin fx) w with status := some 200 }, st))) ∧
      (r.method ≠ "OPTIONS" →
        corsMiddleware fx next w r s = next (withCorsHeaders (allowedOrigin fx) w) r s ∧
          (corsMiddleware fx (counting next) w r (s, n)).2.2 = n + 1) := by
  have hst : (withCorsHeaders (allowedOrigin fx) w).status = none := by
    simp [withCorsHeaders, ResponseWriter.setHeader, hw]
  refine ⟨⟨?_, ?_, ?_, ?_, ?_, ?_⟩, ?_, ?_⟩
  · simp only [withCorsHeaders]
    rw [getHeader_setHeader_other _ _ _ _ (by decide), getHeader_setHeader_other _ _ _ _ (by decide),
      getHeader_setHeader_other _ _ _ _ (by decide), getHeader_setHeader_same]
  · simp only [withCorsHeaders]
    rw [getHeader_setHeader_other _ _ _ _ (by decide), getHeader_setHeader_other _ _ _ _ (by decide),
      getHeader_setHeader_same]
  · simp only [withCorsHeaders]
    rw [getHeader_setHeader_other _ _ _ _ (by decide), getHeader_setHeader_same]
  · simp only [withCorsHeaders]
    rw [getHeader_setHeader_same]
  · intro h
    simp [allowedOrigin, h]
  · intro h
    simp [allowedOrigin, h]
  · intro hm
    have hcors : ∀ (τ : Type) (nx : Handler τ) (t : τ), corsMiddleware fx nx w r t =
        ({ withCorsHeaders (allowedOrigin fx) w with status := some 200 }, t) := by
      intro τ nx t
      simp only [corsMiddleware, hm, if_true]
      have hwh : (withCorsHeaders (allowedOrigin fx) w).WriteHeader 200 =
          { withCorsHeaders (allowedOrigin fx) w with status := some 200 } := by
        simp [ResponseWriter.WriteHeader, hst]
      exact congrArg (fun x => (x, t)) hwh
    refine ⟨hcors σ next s, ?_, ?_, ?_, ?_⟩
    · rw [hcors σ next s]
      rfl
    · rw [hcors σ next s]
      simp [withCorsHeaders, ResponseWriter.setHeader]
    · rw [hcors (σ × Nat) (counting next) (s, n)]
    · intro hpath
      simp only [routes, List.map_cons, List.map_nil, List.mem_cons, List.mem_singleton,
        List.not_mem_nil, or_false] at hpath
      rcases hpath with hp | hp | hp | hp
      · simp only [serve, routes, hp]
        exact hcors Store _ st
      · simp only [serve, routes, hp]
        exact hcors Store _ st
      · simp only [serve, routes, hp]
        exact hcors Store _ st
      · simp only [serve, routes, hp]
        exact hcors Store _ st
  · intro hm
    constructor
    · simp only [corsMiddleware, hm, if_false]
      rfl
    · simp only [corsMiddleware, hm, if_false]
      rfl

/-- C9 at concrete requests to the decorated save handler: a preflight and a POST. -/
theorem cors_contract_witness :
    corsMiddleware (tickingClock 0) (handleSaveCertificate (tickingClock 0)) {} preflightRequest
        oneRecord =
      ({ withCorsHeaders "*" {} with status := some 200 }, oneRecord) ∧
    (corsMiddleware (tickingClock 0) (counting (handleSaveCertificate (tickingClock 0))) {}
        preflightRequest (oneRecord, 0)).2.2 = 0 ∧
    (corsMiddleware (tickingClock 0) (counting (handleSaveCertificate (tickingClock 0))) {}
        createRequest (oneRecord, 0)).2.2 = 1 :=
  ⟨((cors_contract (tickingClock 0) (handleSaveCertificate (tickingClock 0)) {} preflightRequest
      oneRecord 0 {} rfl).2.1 rfl).1,
    ((cors_contract (tickingClock 0) (handleSaveCertificate (tickingClock 0)) {} preflightRequest
      oneRecord 0 {} rfl).2.1 rfl).2.2.2.1,
    ((cors_contract (tickingClock 0) (handleSaveCertificate (tickingClock 0)) {} createRequest
      oneRecord 0 {} rfl).2.2 (by decide)).2⟩

end CertificateGenerator

